import Mathlib

/-
Shallow embedding of src/src/sugar/presence/activity.py: the Activity
facade, the _ShareCommand and _JoinCommand coordinators and the
membership-changed handlers.  Each handler becomes a pure function from
the instance state (and the callback arguments) to the new state together
with the list of observable side effects (dbus calls issued, signal
subscriptions installed, GObject signals emitted).  Python's unbounded
integers are modelled as Int, Python None as Option, dbus dicts as
association lists, and a Python exception (RuntimeError, AssertionError,
TypeError, IndexError) as the error side of Except / Option.
-/

namespace SugarActivity

/-- Telepathy constant HANDLE_TYPE_ROOM. -/
def HANDLE_TYPE_ROOM : Nat := 2

/-- Telepathy constant PROPERTY_FLAG_WRITE. -/
def PROPERTY_FLAG_WRITE : Nat := 2

/-- Telepathy channel type name CHANNEL_TYPE_TEXT. -/
def CHANNEL_TYPE_TEXT : String := "org.freedesktop.Telepathy.Channel.Type.Text"

/-- Telepathy channel type name CHANNEL_TYPE_TUBES. -/
def CHANNEL_TYPE_TUBES : String := "org.freedesktop.Telepathy.Channel.Type.Tubes"

/-- A ready telepathy channel proxy as the coordinators see it: its object
path, whether it exposes PROPERTIES_INTERFACE, and the property specs
(ident, name, signature, flags) that ListProperties on that interface
would report.  The live join code never consults the last two fields. -/
structure ChannelH where
  path : String
  hasPropertiesIface : Bool
  propSpecs : List (Nat × String × String × Nat)
deriving Repr, DecidableEq

/-- One observable side effect of the embedded code: an asynchronous dbus
call issued, a signal subscription installed, or a GObject signal
emitted.  listProps / setProps model ListProperties / SetProperties on
the text channel's PROPERTIES_INTERFACE; the live code contains no
reachable call site for either. -/
inductive Action
  | requestChannel (chanType : String) (handleType : Nat) (room : Option Int)
  | requestHandles (handleType : Nat) (names : List String)
  | connectToSignal (signal : String)
  | getSelfHandle
  | getGroupFlags
  | getAllMembers
  | addMembers (handles : List (Option Int))
  | listProps
  | setProps (props : List (Nat × Bool))
  | addActivity (activityId : String) (room : Option Int)
  | createJoinCommand (room : Option Int)
  | runJoinCommand
  | emitFinished (error : Option String)
  | emitBuddyJoined (handle : Int)
  | emitJoined (success : Bool) (error : Option String)
  | notifyProp (propName : String)
deriving Repr, DecidableEq

/-- Python membership test self._self_handle in handles, where
_self_handle may still be unset (None is not an int handle, so the test
is then False). -/
def optMem (selfHandle : Option Int) (handles : List Int) : Bool :=
  match selfHandle with
  | some h => handles.contains h
  | none => false

/-- Mutable state of a _JoinCommand instance: the fields assigned in
__init__ plus _self_handle, which only exists once the GetSelfHandle
reply assigned it. -/
structure JoinState where
  roomHandle : Option Int
  finished : Bool
  textChannelGroupFlags : Option Int
  textChannel : Option ChannelH
  tubesChannel : Option ChannelH
  selfHandle : Option Int
deriving Repr, DecidableEq

/-- _JoinCommand.__init__. -/
def newJoinCommand (room : Option Int) : JoinState :=
  { roomHandle := room, finished := false, textChannelGroupFlags := none,
    textChannel := none, tubesChannel := none, selfHandle := none }

/-- _JoinCommand.run: raises RuntimeError when the command has already
finished, otherwise issues the two concurrent RequestChannel calls (text
then tubes).  It does not record that it was called, and it mutates no
state. -/
def runJoin (s : JoinState) : Except String (JoinState × List Action) :=
  if s.finished then
    Except.error "This command has already finished"
  else
    Except.ok (s,
      [Action.requestChannel CHANNEL_TYPE_TEXT HANDLE_TYPE_ROOM s.roomHandle,
       Action.requestChannel CHANNEL_TYPE_TUBES HANDLE_TYPE_ROOM s.roomHandle])

/-- _JoinCommand.__error_handler_cb: sets _finished and emits
finished(error).  It does not check whether _finished was already set. -/
def errorHandlerJoin (s : JoinState) (error : String) : JoinState × List Action :=
  ({ s with finished := true }, [Action.emitFinished (some error)])

/-- _JoinCommand.__text_channel_members_changed_cb.  The live code emits
finished(None) when the self handle is in the added set and then hits an
early return; everything below that return (the commented-out buddy
bookkeeping and the ListProperties / SetProperties negotiation at the end
of the method, lines 619-742 of the source) is unreachable. -/
def membersChangedJoin (s : JoinState) (message : String)
    (added removed localPending remotePending : List Int)
    (actor reason : Int) : JoinState × List Action :=
  if optMem s.selfHandle added then
    ({ s with finished := true }, [Action.emitFinished none])
  else
    (s, [])

/-- got_all_members, nested in _JoinCommand._add_self_to_channel: a
nonempty member list is fed through __text_channel_members_changed_cb as
a synthetic event; then, if the self handle is among the members, the
code asserts _finished (a failed assert is the Except error), otherwise
it issues AddMembers([self._self_handle]). -/
def gotAllMembers (s : JoinState)
    (members localPending remotePending : List Int) :
    Except String (JoinState × List Action) :=
  let fed := if members.isEmpty then (s, ([] : List Action))
             else membersChangedJoin s "" members [] [] [] 0 0
  if optMem fed.1.selfHandle members then
    if fed.1.finished then Except.ok fed else Except.error "AssertionError"
  else
    Except.ok (fed.1, fed.2 ++ [Action.addMembers [fed.1.selfHandle]])

/-- got_group_flags, nested in _JoinCommand._add_self_to_channel: stores
the fetched flags, then connects MembersChanged, then issues
GetAllMembers (subscribe, then bulk-fetch). -/
def gotGroupFlags (s : JoinState) (flags : Int) : JoinState × List Action :=
  ({ s with textChannelGroupFlags := some flags },
   [Action.connectToSignal "MembersChanged", Action.getAllMembers])

/-- got_self_handle, nested in _JoinCommand._add_self_to_channel: stores
the self handle, then connects GroupFlagsChanged, then issues
GetGroupFlags (subscribe, then fetch). -/
def gotSelfHandle (s : JoinState) (selfHandle : Int) : JoinState × List Action :=
  ({ s with selfHandle := some selfHandle },
   [Action.connectToSignal "GroupFlagsChanged", Action.getGroupFlags])

/-- _JoinCommand._add_self_to_channel: issues GetSelfHandle on the text
channel group. -/
def addSelfToChannel (s : JoinState) : JoinState × List Action :=
  (s, [Action.getSelfHandle])

/-- _JoinCommand._tubes_ready: a no-op until both channels are set, then
proceeds to _add_self_to_channel. -/
def tubesReady (s : JoinState) : JoinState × List Action :=
  if s.textChannel.isNone || s.tubesChannel.isNone then (s, [])
  else addSelfToChannel s

/-- _JoinCommand.__tubes_channel_ready_cb. -/
def tubesChannelReadyCb (s : JoinState) (channel : ChannelH) : JoinState × List Action :=
  tubesReady { s with tubesChannel := some channel }

/-- _JoinCommand.__text_channel_ready_cb. -/
def textChannelReadyCb (s : JoinState) (channel : ChannelH) : JoinState × List Action :=
  tubesReady { s with textChannel := some channel }

/-- _JoinCommand.__text_channel_group_flags_changed_cb: flags |= added
followed by flags &= ~removed, on Python's unbounded two's-complement
integers.  If the flags attribute were still None (event delivered before
the GetGroupFlags reply; the subscription is indeed installed first) the
Python code would raise a TypeError, modelled as none. -/
def groupFlagsChangedCb (s : JoinState) (added removed : Int) : Option JoinState :=
  match s.textChannelGroupFlags with
  | some flags =>
    let flags2 := Int.land (Int.lor flags added) (Int.lnot removed)
    some { s with textChannelGroupFlags := some flags2 }
  | none => none

/-- Callback deliveries to a _JoinCommand once its members-changed
handler is live: an error callback from any pending call, or a
MembersChanged event. -/
inductive JoinEvent
  | errorCb (error : String)
  | membersChanged (message : String)
      (added removed localPending remotePending : List Int)
      (actor reason : Int)
deriving Repr, DecidableEq

/-- Dispatch one delivered callback to its _JoinCommand handler. -/
def joinDeliver (s : JoinState) : JoinEvent → JoinState × List Action
  | JoinEvent.errorCb e => errorHandlerJoin s e
  | JoinEvent.membersChanged m a r lp rp ac re =>
      membersChangedJoin s m a r lp rp ac re

/-- Deliver a whole sequence of callbacks, concatenating the side
effects. -/
def joinDeliverAll (s : JoinState) : List JoinEvent → JoinState × List Action
  | [] => (s, [])
  | ev :: rest =>
    let r := joinDeliver s ev
    let r2 := joinDeliverAll r.1 rest
    (r2.1, r.2 ++ r2.2)

/-- A delivery is terminal for a given self handle when its handler emits
finished: every error callback, and any MembersChanged whose added set
contains the self handle. -/
def joinTerminal (selfHandle : Option Int) : JoinEvent → Bool
  | JoinEvent.errorCb _ => true
  | JoinEvent.membersChanged _ a _ _ _ _ _ => optMem selfHandle a

/-- Recognises an emission of the finished signal. -/
def isFinishedEmit : Action → Bool
  | Action.emitFinished _ => true
  | _ => false

/-- Number of finished emissions in a side-effect list. -/
def finishedCount (actions : List Action) : Nat :=
  actions.countP isFinishedEmit

/-- Recognises a property-negotiation call (ListProperties or
SetProperties on the text channel's PROPERTIES_INTERFACE). -/
def isPropsNegotiation : Action → Bool
  | Action.listProps => true
  | Action.setProps _ => true
  | _ => false

/-- The action a occurs strictly before the action b in the list. -/
def occursBefore (actions : List Action) (a b : Action) : Prop :=
  ∃ i j : Fin actions.length, i < j ∧ actions.get i = a ∧ actions.get j = b

instance decOccursBefore (actions : List Action) (a b : Action) :
    Decidable (occursBefore actions a b) :=
  inferInstanceAs (Decidable (∃ i j : Fin actions.length,
    i < j ∧ actions.get i = a ∧ actions.get j = b))

/-- Mutable state of a _ShareCommand instance; the _join_command
attribute is modelled by whether the inner command was created. -/
structure ShareState where
  activityId : String
  finished : Bool
  roomHandle : Option Int
  textChannel : Option ChannelH
  tubesChannel : Option ChannelH
  hasJoinCommand : Bool
deriving Repr, DecidableEq

/-- _ShareCommand.__init__. -/
def newShareCommand (activityId : String) : ShareState :=
  { activityId := activityId, finished := false, roomHandle := none,
    textChannel := none, tubesChannel := none, hasJoinCommand := false }

/-- _ShareCommand.run: issues RequestHandles for the activity id.  Unlike
_JoinCommand.run it performs no finished check at all, so it cannot
fail; it is Except-valued only to share runJoin's shape. -/
def runShare (s : ShareState) : Except String (ShareState × List Action) :=
  Except.ok (s, [Action.requestHandles HANDLE_TYPE_ROOM [s.activityId]])

/-- _ShareCommand.__got_handles_cb: takes handles[0] (an IndexError,
modelled as none, on an empty list), stores it as the room handle and
creates and runs the inner _JoinCommand against it. -/
def gotHandlesCb (s : ShareState) (handles : List Int) :
    Option (ShareState × List Action) :=
  match handles with
  | [] => none
  | h :: _ =>
    some ({ s with roomHandle := some h, hasJoinCommand := true },
          [Action.createJoinCommand (some h), Action.runJoinCommand])

/-- _ShareCommand.__joined_cb: a join failure finishes immediately with
that error; on join success the inner command's channels are copied and
AddActivity is issued for the activity id and room handle. -/
def shareJoinedCb (s : ShareState) (error : Option String)
    (joinText joinTubes : Option ChannelH) : ShareState × List Action :=
  match error with
  | some e => ({ s with finished := true }, [Action.emitFinished (some e)])
  | none =>
    ({ s with textChannel := joinText, tubesChannel := joinTubes },
     [Action.addActivity s.activityId s.roomHandle])

/-- _ShareCommand.__added_activity_cb: the AddActivity reply finishes the
share with success. -/
def addedActivityCb (s : ShareState) : ShareState × List Action :=
  ({ s with finished := true }, [Action.emitFinished none])

/-- _ShareCommand.__error_handler_cb: sets _finished and emits
finished(error), again without checking whether _finished was already
set. -/
def errorHandlerShare (s : ShareState) (error : String) : ShareState × List Action :=
  ({ s with finished := true }, [Action.emitFinished (some error)])

/-- Callback deliveries to a _ShareCommand: an error callback, the inner
join command's finished signal, or the AddActivity reply. -/
inductive ShareEvent
  | errorCb (error : String)
  | joinFinished (error : Option String) (joinText joinTubes : Option ChannelH)
  | addedActivity
deriving Repr, DecidableEq

/-- Dispatch one delivered callback to its _ShareCommand handler. -/
def shareDeliver (s : ShareState) : ShareEvent → ShareState × List Action
  | ShareEvent.errorCb e => errorHandlerShare s e
  | ShareEvent.joinFinished e t tu => shareJoinedCb s e t tu
  | ShareEvent.addedActivity => addedActivityCb s

/-- Deliver a whole sequence of callbacks to a _ShareCommand. -/
def shareDeliverAll (s : ShareState) : List ShareEvent → ShareState × List Action
  | [] => (s, [])
  | ev :: rest =>
    let r := shareDeliver s ev
    let r2 := shareDeliverAll r.1 rest
    (r2.1, r.2 ++ r2.2)

/-- A delivery whose _ShareCommand handler emits finished: every error
callback, a join that finished with an error, and the AddActivity
reply. -/
def shareTerminal : ShareEvent → Bool
  | ShareEvent.errorCb _ => true
  | ShareEvent.joinFinished e _ _ => e.isSome
  | ShareEvent.addedActivity => true

/-- State of the Activity facade relevant to join(): the _joined flag,
whether a _join_command is in flight, and the room handle. -/
structure ActivityState where
  joined : Bool
  hasJoinCommand : Bool
  roomHandle : Option Int
deriving Repr, DecidableEq

/-- Activity.join: returns silently when a join command is already in
flight; re-emits joined(True, None) when already joined; otherwise
creates a _JoinCommand, connects to its finished signal and runs it. -/
def activityJoin (s : ActivityState) : ActivityState × List Action :=
  if s.hasJoinCommand then (s, [])
  else if s.joined then (s, [Action.emitJoined true none])
  else ({ s with hasJoinCommand := true },
        [Action.createJoinCommand s.roomHandle,
         Action.connectToSignal "finished",
         Action.runJoinCommand])

/-- Recognises an emission of the joined signal. -/
def isJoinedEmit : Action → Bool
  | Action.emitJoined _ _ => true
  | _ => false

/-- Recognises the creation of a _JoinCommand. -/
def isCreateJoin : Action → Bool
  | Action.createJoinCommand _ => true
  | _ => false

/-- Activity.__text_channel_members_changed_cb: emits buddy-joined for
every handle in the added list of each event; no member set is consulted
or maintained and nothing is deduplicated. -/
def activityMembersChangedCb (message : String)
    (added removed localPending remotePending : List Int)
    (actor reason : Int) : List Action :=
  added.map (fun h => Action.emitBuddyJoined h)

/-- One MembersChanged signal as delivered by dbus. -/
structure MembersEvent where
  message : String
  added : List Int
  removed : List Int
  localPending : List Int
  remotePending : List Int
  actor : Int
  reason : Int
deriving Repr, DecidableEq

/-- Deliver a stream of MembersChanged events to the Activity handler,
concatenating the emissions. -/
def activityMembersStream : List MembersEvent → List Action
  | [] => []
  | e :: rest =>
    activityMembersChangedCb e.message e.added e.removed e.localPending
      e.remotePending e.actor e.reason ++ activityMembersStream rest

/-- A Python value as it appears in a dbus property dict: a string, a
number, a boolean, or the Python value None. -/
inductive PyVal
  | str (s : String)
  | int (n : Int)
  | bool (b : Bool)
  | none
deriving Repr, DecidableEq

/-- Python truthiness (the bool builtin) on the values we model. -/
def PyVal.truthy : PyVal → Bool
  | .str s => s != ""
  | .int n => n != 0
  | .bool b => b
  | .none => false

/-- Python dict.get(key, default) on an association-list dict. -/
def dictGet (props : List (String × PyVal)) (key : String) (dflt : PyVal) : PyVal :=
  match props.find? (fun kv => kv.1 == key) with
  | some kv => kv.2
  | Option.none => dflt

/-- A Python attribute that holds either a str or None, seen as a
PyVal (used for the defaults of dict.get in _update_properties). -/
def optStrVal : Option String → PyVal
  | some s => PyVal.str s
  | none => PyVal.none

/-- Shared shape of the name, tags and color blocks of
Activity._update_properties: assign and notify when the incoming value
is a str different from the current value. -/
def updMutableStr (val : PyVal) (current : Option String) : Option String × Bool :=
  match val with
  | PyVal.str v => if current ≠ some v then (some v, true) else (current, false)
  | _ => (current, false)

/-- Shared shape of the id and type blocks of
Activity._update_properties: assign and notify only when the incoming
value is a str and the current value is still None. -/
def updWriteOnceStr (val : PyVal) (current : Option String) : Option String × Bool :=
  match val with
  | PyVal.str v => if current = none then (some v, true) else (current, false)
  | _ => (current, false)

/-- Properties held by an Activity instance that _update_properties can
touch. -/
structure ActivityProps where
  id : Option String
  color : Option String
  name : Option String
  type : Option String
  tags : Option String
  privateProp : Bool
deriving Repr, DecidableEq

/-- Activity._update_properties: processes name, tags, color, private,
id and type in that order; name/tags/color are overwritten on change,
private goes through bool(), and id/type are assigned only while still
None. -/
def updateProperties (s : ActivityProps) (newProps : List (String × PyVal)) :
    ActivityProps × List Action :=
  let nm := updMutableStr (dictGet newProps "name" (optStrVal s.name)) s.name
  let tg := updMutableStr (dictGet newProps "tags" (optStrVal s.tags)) s.tags
  let cl := updMutableStr (dictGet newProps "color" (optStrVal s.color)) s.color
  let pv := (dictGet newProps "private" (PyVal.bool s.privateProp)).truthy
  let pvChanged := pv != s.privateProp
  let idv := updWriteOnceStr (dictGet newProps "id" (optStrVal s.id)) s.id
  let ty := updWriteOnceStr (dictGet newProps "type" (optStrVal s.type)) s.type
  ({ id := idv.1, color := cl.1, name := nm.1, type := ty.1, tags := tg.1,
     privateProp := pv },
   (if nm.2 then [Action.notifyProp "name"] else []) ++
   (if tg.2 then [Action.notifyProp "tags"] else []) ++
   (if cl.2 then [Action.notifyProp "color"] else []) ++
   (if pvChanged then [Action.notifyProp "private"] else []) ++
   (if idv.2 then [Action.notifyProp "id"] else []) ++
   (if ty.2 then [Action.notifyProp "type"] else []))

/-- Fold a sequence of property dicts (the GetProperties reply and any
ActivityPropertiesChanged notifications) through _update_properties. -/
def applyUpdates (s : ActivityProps) (updates : List (List (String × PyVal))) :
    ActivityProps :=
  updates.foldl (fun st p => (updateProperties st p).1) s

/-- Concrete join state used in examples: both channels ready, the text
channel advertising a properties interface with a writable private
property, and the self handle resolved to 7. -/
def cexJoinState : JoinState :=
  { roomHandle := some 42, finished := false, textChannelGroupFlags := some 0,
    textChannel := some { path := "/chan/text", hasPropertiesIface := true,
                          propSpecs := [(1, "private", "b", 3)] },
    tubesChannel := some { path := "/chan/tubes", hasPropertiesIface := false,
                           propSpecs := [] },
    selfHandle := some 7 }

/-- A _JoinCommand state after its terminal outcome was produced. -/
def finishedJoinState : JoinState :=
  { newJoinCommand (some 42) with finished := true }

/-- A _ShareCommand state after its terminal outcome was produced. -/
def finishedShareState : ShareState :=
  { newShareCommand "abc" with finished := true }

/-- The _ShareCommand state right after __got_handles_cb resolved room
handle 99 for activity id abc. -/
def shareAfterHandles : ShareState :=
  { activityId := "abc", finished := false, roomHandle := some 99,
    textChannel := none, tubesChannel := none, hasJoinCommand := true }

/-- An Activity facade state with a join command already in flight. -/
def inFlightActivity : ActivityState :=
  { joined := false, hasJoinCommand := true, roomHandle := some 42 }

/-- One MembersChanged event adding handle 5, removing nobody. -/
def dupEvent : MembersEvent :=
  { message := "", added := [5], removed := [], localPending := [],
    remotePending := [], actor := 0, reason := 0 }

/-- An Activity facade state that is already joined, with no command in
flight. -/
def joinedActivity : ActivityState :=
  { joined := true, hasJoinCommand := false, roomHandle := some 42 }

/-- Concrete property state whose id and type are already set. -/
def propsWitnessState : ActivityProps :=
  { id := some "aid", color := none, name := none, type := some "atype",
    tags := none, privateProp := true }

/-- A property update that tries to overwrite both id and type. -/
def propsWitnessUpdates : List (List (String × PyVal)) :=
  [[("id", PyVal.str "other"), ("type", PyVal.str "other2")]]

/-- The members-changed handler never touches the cached self handle. -/
theorem membersChangedJoin_selfHandle (s : JoinState) (m : String)
    (a r lp rp : List Int) (ac re : Int) :
    (membersChangedJoin s m a r lp rp ac re).1.selfHandle = s.selfHandle := by
  unfold membersChangedJoin
  split <;> rfl

/-- The members-changed handler sets _finished whenever the self handle
is in the added set. -/
theorem membersChangedJoin_finished_of_mem (s : JoinState) (m : String)
    (a r lp rp : List Int) (ac re : Int) (h : optMem s.selfHandle a = true) :
    (membersChangedJoin s m a r lp rp ac re).1.finished = true := by
  unfold membersChangedJoin
  simp [h]

/-- No _JoinCommand callback changes the cached self handle. -/
theorem joinDeliver_selfHandle (s : JoinState) (ev : JoinEvent) :
    (joinDeliver s ev).1.selfHandle = s.selfHandle := by
  cases ev with
  | errorCb e => rfl
  | membersChanged m a r lp rp ac re =>
    exact membersChangedJoin_selfHandle s m a r lp rp ac re

/-- A single _JoinCommand callback emits finished exactly when it is a
terminal delivery, whatever the current state. -/
theorem joinDeliver_finishedCount (s : JoinState) (ev : JoinEvent) :
    finishedCount (joinDeliver s ev).2 =
      if joinTerminal s.selfHandle ev then 1 else 0 := by
  cases ev with
  | errorCb e => rfl
  | membersChanged m a r lp rp ac re =>
    show finishedCount (membersChangedJoin s m a r lp rp ac re).2 = _
    unfold membersChangedJoin joinTerminal
    by_cases h : optMem s.selfHandle a <;> simp [h, finishedCount, isFinishedEmit]

/-- Over any delivery sequence, a _JoinCommand emits finished once per
terminal delivery: the flag set by an earlier terminal delivery does not
suppress later emissions. -/
theorem joinDeliverAll_finishedCount (events : List JoinEvent) :
    ∀ s : JoinState, finishedCount (joinDeliverAll s events).2 =
      events.countP (joinTerminal s.selfHandle) := by
  induction events with
  | nil => intro s; rfl
  | cons ev rest ih =>
    intro s
    show finishedCount
        ((joinDeliver s ev).2 ++ (joinDeliverAll (joinDeliver s ev).1 rest).2) =
      (ev :: rest).countP (joinTerminal s.selfHandle)
    rw [finishedCount, List.countP_append, List.countP_cons]
    have h1 := joinDeliver_finishedCount s ev
    have h2 := ih (joinDeliver s ev).1
    rw [finishedCount] at h1 h2
    rw [h1, h2, joinDeliver_selfHandle]
    omega

/-- A single _ShareCommand callback emits finished exactly when it is a
terminal delivery, whatever the current state. -/
theorem shareDeliver_finishedCount (s : ShareState) (ev : ShareEvent) :
    finishedCount (shareDeliver s ev).2 = if shareTerminal ev then 1 else 0 := by
  cases ev with
  | errorCb e => rfl
  | joinFinished e t tu => cases e <;> rfl
  | addedActivity => rfl

/-- Over any delivery sequence, a _ShareCommand emits finished once per
terminal delivery. -/
theorem shareDeliverAll_finishedCount (events : List ShareEvent) :
    ∀ s : ShareState, finishedCount (shareDeliverAll s events).2 =
      events.countP shareTerminal := by
  induction events with
  | nil => intro s; rfl
  | cons ev rest ih =>
    intro s
    show finishedCount
        ((shareDeliver s ev).2 ++ (shareDeliverAll (shareDeliver s ev).1 rest).2) =
      (ev :: rest).countP shareTerminal
    rw [finishedCount, List.countP_append, List.countP_cons]
    have h1 := shareDeliver_finishedCount s ev
    have h2 := ih (shareDeliver s ev).1
    rw [finishedCount] at h1 h2
    rw [h1, h2]
    omega

/-- C1 (as stated) is false: delivering two failing channel-open error
callbacks to one _JoinCommand emits finished twice; the second terminal
condition is not discarded. -/
theorem join_double_error_double_finish :
    (joinDeliverAll (newJoinCommand (some 42))
        [JoinEvent.errorCb "text failed", JoinEvent.errorCb "tubes failed"]).2 =
      [Action.emitFinished (some "text failed"),
       Action.emitFinished (some "tubes failed")] ∧
    finishedCount (joinDeliverAll (newJoinCommand (some 42))
        [JoinEvent.errorCb "text failed", JoinEvent.errorCb "tubes failed"]).2 = 2 ∧
    finishedCount (joinDeliverAll (newJoinCommand (some 42))
        [JoinEvent.errorCb "text failed", JoinEvent.errorCb "tubes failed"]).2 ≠ 1 :=
  ⟨rfl, rfl, by decide⟩

/-- C1 (amended): both coordinators emit finished once per terminal
callback delivered, for every delivery sequence; a single terminal
delivery yields exactly one emission, but later terminal deliveries are
emitted again rather than discarded. -/
theorem finished_once_per_terminal_delivery :
    (∀ (s : JoinState) (events : List JoinEvent),
      finishedCount (joinDeliverAll s events).2 =
        events.countP (joinTerminal s.selfHandle)) ∧
    (∀ (s : ShareState) (events : List ShareEvent),
      finishedCount (shareDeliverAll s events).2 =
        events.countP shareTerminal) :=
  ⟨fun s events => joinDeliverAll_finishedCount events s,
   fun s events => shareDeliverAll_finishedCount events s⟩

/-- A single _JoinCommand callback never issues a ListProperties or
SetProperties call. -/
theorem joinDeliver_propsCount (s : JoinState) (ev : JoinEvent) :
    (joinDeliver s ev).2.countP isPropsNegotiation = 0 := by
  cases ev with
  | errorCb e => rfl
  | membersChanged m a r lp rp ac re =>
    show (membersChangedJoin s m a r lp rp ac re).2.countP isPropsNegotiation = 0
    unfold membersChangedJoin
    by_cases h : optMem s.selfHandle a <;> simp [h, isPropsNegotiation]

/-- No delivery sequence makes a _JoinCommand issue a property
negotiation call. -/
theorem joinDeliverAll_propsCount (events : List JoinEvent) :
    ∀ s : JoinState, (joinDeliverAll s events).2.countP isPropsNegotiation = 0 := by
  induction events with
  | nil => intro s; rfl
  | cons ev rest ih =>
    intro s
    show ((joinDeliver s ev).2 ++
        (joinDeliverAll (joinDeliver s ev).1 rest).2).countP isPropsNegotiation = 0
    rw [List.countP_append, joinDeliver_propsCount, ih]

/-- C2 (as stated) is false: in a state whose ready text channel does
expose a properties interface advertising a writable private property,
the self-handle-added event still makes the handler emit finished(None)
at once, issuing no ListProperties and no SetProperties call. -/
theorem self_added_no_property_negotiation_cex :
    cexJoinState.textChannel.map ChannelH.hasPropertiesIface = some true ∧
    membersChangedJoin cexJoinState "" [7] [] [] [] 0 0 =
      ({ cexJoinState with finished := true }, [Action.emitFinished none]) ∧
    (membersChangedJoin cexJoinState "" [7] [] [] [] 0 0).2.countP
      isPropsNegotiation = 0 :=
  ⟨rfl, rfl, rfl⟩

/-- C2 (amended): the membership event in which the self handle appears
makes the Join coordinator finish as success immediately; no property
negotiation is performed on any delivery sequence, whatever the text
channel's capabilities (the negotiation code sits after an early return
and is unreachable). -/
theorem self_added_finishes_immediately :
    (∀ (s : JoinState) (events : List JoinEvent),
      (joinDeliverAll s events).2.countP isPropsNegotiation = 0) ∧
    (∀ (s : JoinState) (message : String)
        (added removed localPending remotePending : List Int) (actor reason : Int),
      optMem s.selfHandle added = true →
      membersChangedJoin s message added removed localPending remotePending
          actor reason =
        ({ s with finished := true }, [Action.emitFinished none])) := by
  constructor
  · intro s events
    exact joinDeliverAll_propsCount events s
  · intro s m a r lp rp ac re h
    unfold membersChangedJoin
    simp [h]

/-- Witness for the amended C2 at a concrete input. -/
theorem self_added_finishes_immediately_witness :
    optMem cexJoinState.selfHandle [7] = true ∧
    membersChangedJoin cexJoinState "" [7] [] [] [] 0 0 =
      ({ cexJoinState with finished := true }, [Action.emitFinished none]) :=
  ⟨by decide,
   self_added_finishes_immediately.2 cexJoinState "" [7] [] [] [] 0 0 (by decide)⟩

/-- C3 (as stated) is false: run leaves the _JoinCommand state untouched,
so a second run before any terminal callback succeeds again (re-issuing
both channel requests), and _ShareCommand.run succeeds even on a command
that has already finished. -/
theorem run_reuse_not_rejected :
    (runJoin (newJoinCommand (some 42))).bind (fun p => runJoin p.1) =
      Except.ok (newJoinCommand (some 42),
        [Action.requestChannel CHANNEL_TYPE_TEXT HANDLE_TYPE_ROOM (some 42),
         Action.requestChannel CHANNEL_TYPE_TUBES HANDLE_TYPE_ROOM (some 42)]) ∧
    runShare finishedShareState =
      Except.ok (finishedShareState,
        [Action.requestHandles HANDLE_TYPE_ROOM ["abc"]]) :=
  ⟨rfl, rfl⟩

/-- C3 (amended): _JoinCommand.run fails synchronously (RuntimeError)
exactly when the command has already finished; before termination a
repeated call succeeds and re-issues both channel requests; and
_ShareCommand.run never performs the check, so it never fails. -/
theorem run_finished_check_behaviour :
    (∀ s : JoinState, s.finished = true →
      runJoin s = Except.error "This command has already finished") ∧
    (∀ s : JoinState, s.finished = false →
      runJoin s = Except.ok (s,
        [Action.requestChannel CHANNEL_TYPE_TEXT HANDLE_TYPE_ROOM s.roomHandle,
         Action.requestChannel CHANNEL_TYPE_TUBES HANDLE_TYPE_ROOM s.roomHandle])) ∧
    (∀ s : ShareState, runShare s =
      Except.ok (s, [Action.requestHandles HANDLE_TYPE_ROOM [s.activityId]])) := by
  refine ⟨fun s h => ?_, fun s h => ?_, fun s => rfl⟩
  · unfold runJoin
    simp [h]
  · unfold runJoin
    simp [h]

/-- Witness for the amended C3 at concrete inputs. -/
theorem run_finished_check_behaviour_witness :
    (finishedJoinState.finished = true ∧
      runJoin finishedJoinState =
        Except.error "This command has already finished") ∧
    ((newJoinCommand (some 1)).finished = false ∧
      runJoin (newJoinCommand (some 1)) = Except.ok (newJoinCommand (some 1),
        [Action.requestChannel CHANNEL_TYPE_TEXT HANDLE_TYPE_ROOM (some 1),
         Action.requestChannel CHANNEL_TYPE_TUBES HANDLE_TYPE_ROOM (some 1)])) :=
  ⟨⟨rfl, run_finished_check_behaviour.1 finishedJoinState rfl⟩,
   ⟨rfl, run_finished_check_behaviour.2.1 (newJoinCommand (some 1)) rfl⟩⟩

/-- C4 (as stated) is false: in the execution started by the
GetSelfHandle reply, the GroupFlagsChanged subscription is installed
strictly before GetGroupFlags is issued, so the subscribe-then-fetch
order does occur (and the claimed fetch-then-subscribe order does not). -/
theorem flags_subscribe_then_fetch_cex :
    (gotSelfHandle (newJoinCommand (some 42)) 7).2 =
      [Action.connectToSignal "GroupFlagsChanged", Action.getGroupFlags] ∧
    occursBefore (gotSelfHandle (newJoinCommand (some 42)) 7).2
      (Action.connectToSignal "GroupFlagsChanged") Action.getGroupFlags ∧
    ¬ occursBefore (gotSelfHandle (newJoinCommand (some 42)) 7).2
      Action.getGroupFlags (Action.connectToSignal "GroupFlagsChanged") :=
  ⟨rfl, by decide, by decide⟩

/-- C4 (amended): in every execution, got_self_handle installs the
GroupFlagsChanged subscription first and only then issues GetGroupFlags;
the fetch-then-subscribe order never occurs. -/
theorem flags_subscribe_precedes_fetch :
    ∀ (s : JoinState) (selfHandle : Int),
      (gotSelfHandle s selfHandle).2 =
        [Action.connectToSignal "GroupFlagsChanged", Action.getGroupFlags] ∧
      occursBefore (gotSelfHandle s selfHandle).2
        (Action.connectToSignal "GroupFlagsChanged") Action.getGroupFlags ∧
      ¬ occursBefore (gotSelfHandle s selfHandle).2
        Action.getGroupFlags (Action.connectToSignal "GroupFlagsChanged") := by
  intro s h
  refine ⟨rfl, ?_, ?_⟩
  · show occursBefore
      [Action.connectToSignal "GroupFlagsChanged", Action.getGroupFlags]
      (Action.connectToSignal "GroupFlagsChanged") Action.getGroupFlags
    decide
  · show ¬ occursBefore
      [Action.connectToSignal "GroupFlagsChanged", Action.getGroupFlags]
      Action.getGroupFlags (Action.connectToSignal "GroupFlagsChanged")
    decide

/-- Emissions of buddy-joined for a fixed handle in one mapped added
list count the occurrences of that handle. -/
theorem count_emitBuddyJoined_map (added : List Int) (h : Int) :
    (added.map (fun x => Action.emitBuddyJoined x)).count
      (Action.emitBuddyJoined h) = added.count h := by
  induction added with
  | nil => rfl
  | cons a rest ih => simp [List.count_cons, ih]

/-- C5 (as stated) is false: two MembersChanged events that both add
handle 5, with no removal anywhere, make the Activity handler emit
buddy-joined for handle 5 twice. -/
theorem duplicate_added_double_buddy_joined :
    activityMembersStream [dupEvent, dupEvent] =
      [Action.emitBuddyJoined 5, Action.emitBuddyJoined 5] ∧
    dupEvent.removed = [] ∧
    (activityMembersStream [dupEvent, dupEvent]).count
      (Action.emitBuddyJoined 5) = 2 ∧
    ¬ (activityMembersStream [dupEvent, dupEvent]).count
      (Action.emitBuddyJoined 5) ≤ 1 :=
  ⟨rfl, rfl, by decide, by decide⟩

/-- C5 (amended): the Activity membership handler deduplicates nothing:
over any stream of MembersChanged events, buddy-joined is emitted for a
handle exactly as many times as that handle occurs across the added
lists of the stream, whether or not a removal intervenes. -/
theorem buddy_joined_counts_occurrences :
    ∀ (events : List MembersEvent) (h : Int),
      (activityMembersStream events).count (Action.emitBuddyJoined h) =
        (events.map (fun e => e.added.count h)).sum := by
  intro events h
  induction events with
  | nil => rfl
  | cons e rest ih =>
    show (activityMembersChangedCb e.message e.added e.removed e.localPending
        e.remotePending e.actor e.reason ++ activityMembersStream rest).count
        (Action.emitBuddyJoined h) = _
    rw [List.count_append]
    unfold activityMembersChangedCb
    rw [count_emitBuddyJoined_map, ih]
    simp

/-- An unset-or-set self handle is never a member of the empty list. -/
theorem optMem_nil (selfHandle : Option Int) : optMem selfHandle [] = false := by
  cases selfHandle <;> rfl

/-- C6 (confirmed): got_all_members behaves, in every state, as exactly
one feed of the bulk-fetch result through the live members-changed
handler, followed by AddMembers for the self handle when it is absent
from the fetched members; when it is present the assertion on _finished
never fails (Except.ok throughout), because the synthetic feed itself
already set the flag. -/
theorem got_all_members_reconcile :
    ∀ (s : JoinState) (members localPending remotePending : List Int),
      gotAllMembers s members localPending remotePending =
        Except.ok ((membersChangedJoin s "" members [] [] [] 0 0).1,
          (membersChangedJoin s "" members [] [] [] 0 0).2 ++
            (if optMem s.selfHandle members then []
             else [Action.addMembers [s.selfHandle]])) := by
  intro s members lp rp
  unfold gotAllMembers
  by_cases hm : members.isEmpty
  · have hnil : members = [] := by
      cases members with
      | nil => rfl
      | cons a t => simp [List.isEmpty] at hm
    subst hnil
    rw [optMem_nil]
    have hmc : membersChangedJoin s "" [] [] [] [] 0 0 = (s, []) := by
      unfold membersChangedJoin
      rw [optMem_nil]
      simp
    simp [hmc, optMem_nil]
  · have hsh := membersChangedJoin_selfHandle s "" members [] [] [] 0 0
    by_cases hin : optMem s.selfHandle members
    · have hfin := membersChangedJoin_finished_of_mem s "" members [] [] [] 0 0 hin
      simp [hm, hsh, hin, hfin]
    · simp [hm, hsh, hin]

/-- C7 (confirmed): the _ShareCommand pipeline — RequestHandles for the
activity id; on the handles reply, create and run a _JoinCommand against
handles[0]; on the join finishing without error, issue AddActivity; the
AddActivity reply is the share's success, and a failure of any stage
(including a join failure) is emitted as the share's finished error.  The
closing conjuncts run the §8 scenario: activity id abc resolves to room
handle 99, the inner join succeeds, the registration call fails, and the
emitted finished carries the registration failure. -/
theorem share_pipeline :
    (∀ s : ShareState, runShare s =
        Except.ok (s, [Action.requestHandles HANDLE_TYPE_ROOM [s.activityId]])) ∧
    (∀ (s : ShareState) (h : Int) (rest : List Int),
        gotHandlesCb s (h :: rest) =
          some ({ s with roomHandle := some h, hasJoinCommand := true },
                [Action.createJoinCommand (some h), Action.runJoinCommand])) ∧
    (∀ (s : ShareState) (joinText joinTubes : Option ChannelH),
        shareJoinedCb s none joinText joinTubes =
          ({ s with textChannel := joinText, tubesChannel := joinTubes },
           [Action.addActivity s.activityId s.roomHandle])) ∧
    (∀ (s : ShareState) (e : String) (joinText joinTubes : Option ChannelH),
        shareJoinedCb s (some e) joinText joinTubes =
          ({ s with finished := true }, [Action.emitFinished (some e)])) ∧
    (∀ s : ShareState, addedActivityCb s =
        ({ s with finished := true }, [Action.emitFinished none])) ∧
    (∀ (s : ShareState) (e : String), errorHandlerShare s e =
        ({ s with finished := true }, [Action.emitFinished (some e)])) ∧
    gotHandlesCb (newShareCommand "abc") [99] =
      some (shareAfterHandles,
        [Action.createJoinCommand (some 99), Action.runJoinCommand]) ∧
    (shareJoinedCb shareAfterHandles none none none).2 =
      [Action.addActivity "abc" (some 99)] ∧
    (errorHandlerShare (shareJoinedCb shareAfterHandles none none none).1
        "registration failed").2 =
      [Action.emitFinished (some "registration failed")] :=
  ⟨fun s => rfl, fun s h rest => rfl, fun s t tu => rfl, fun s e t tu => rfl,
   fun s => rfl, fun s e => rfl, rfl, rfl, rfl⟩

/-- C8 (confirmed): starting from flags F, applying the flag-change
handler for events (added=A1, removed=R1) then (added=A2, removed=R2)
yields flags (((F|A1)&~R1)|A2)&~R2. -/
theorem group_flags_two_deltas :
    ∀ (s : JoinState) (F A1 R1 A2 R2 : Int),
      (groupFlagsChangedCb { s with textChannelGroupFlags := some F } A1 R1).bind
          (fun s2 => groupFlagsChangedCb s2 A2 R2) =
        some { s with textChannelGroupFlags := some (Int.land (Int.lor (Int.land (Int.lor F A1) (Int.lnot R1)) A2) (Int.lnot R2)) } := by
  intro s F A1 R1 A2 R2
  rfl

/-- C9 (as stated) is false: when a join command is already in flight,
Activity.join returns silently — it emits no joined signal at all (and
creates no new command). -/
theorem join_in_flight_silent :
    activityJoin inFlightActivity = (inFlightActivity, []) ∧
    (activityJoin inFlightActivity).2.countP isJoinedEmit = 0 ∧
    (activityJoin inFlightActivity).2.countP isCreateJoin = 0 :=
  ⟨rfl, rfl, rfl⟩

/-- C9 (amended): join() with a command in flight returns with no
emission; join() when already joined (and nothing in flight) re-emits
joined(success); in both cases no new _JoinCommand is created. -/
theorem join_noop_behaviour :
    (∀ s : ActivityState, s.hasJoinCommand = true →
        activityJoin s = (s, [])) ∧
    (∀ s : ActivityState, s.hasJoinCommand = false → s.joined = true →
        activityJoin s = (s, [Action.emitJoined true none])) ∧
    (∀ s : ActivityState, s.joined = true ∨ s.hasJoinCommand = true →
        (activityJoin s).2.countP isCreateJoin = 0) := by
  refine ⟨fun s h => ?_, fun s h hj => ?_, fun s hor => ?_⟩
  · unfold activityJoin
    simp [h]
  · unfold activityJoin
    simp [h, hj]
  · unfold activityJoin
    rcases hor with hj | hc
    · by_cases hc2 : s.hasJoinCommand <;> simp [hj, hc2, isCreateJoin]
    · simp [hc, isCreateJoin]

/-- Witness for the amended C9 at concrete inputs. -/
theorem join_noop_behaviour_witness :
    (inFlightActivity.hasJoinCommand = true ∧
      activityJoin inFlightActivity = (inFlightActivity, [])) ∧
    (joinedActivity.hasJoinCommand = false ∧ joinedActivity.joined = true ∧
      activityJoin joinedActivity =
        (joinedActivity, [Action.emitJoined true none])) :=
  ⟨⟨rfl, join_noop_behaviour.1 inFlightActivity rfl⟩,
   ⟨rfl, rfl, join_noop_behaviour.2.1 joinedActivity rfl rfl⟩⟩

/-- A write-once field that already holds a value is left alone. -/
theorem updWriteOnceStr_some (val : PyVal) (v : String) :
    updWriteOnceStr val (some v) = (some v, false) := by
  cases val <;> rfl

/-- One _update_properties call preserves an already-set id. -/
theorem updateProperties_id (s : ActivityProps) (p : List (String × PyVal))
    (v : String) (h : s.id = some v) :
    (updateProperties s p).1.id = some v := by
  show (updWriteOnceStr (dictGet p "id" (optStrVal s.id)) s.id).1 = some v
  rw [h, updWriteOnceStr_some]

/-- One _update_properties call preserves an already-set type. -/
theorem updateProperties_type (s : ActivityProps) (p : List (String × PyVal))
    (v : String) (h : s.type = some v) :
    (updateProperties s p).1.type = some v := by
  show (updWriteOnceStr (dictGet p "type" (optStrVal s.type)) s.type).1 = some v
  rw [h, updWriteOnceStr_some]

/-- Any sequence of _update_properties calls preserves an already-set
id. -/
theorem applyUpdates_id (updates : List (List (String × PyVal))) :
    ∀ (s : ActivityProps) (v : String), s.id = some v →
      (applyUpdates s updates).id = some v := by
  induction updates with
  | nil => intro s v h; exact h
  | cons p rest ih =>
    intro s v h
    exact ih (updateProperties s p).1 v (updateProperties_id s p v h)

/-- Any sequence of _update_properties calls preserves an already-set
type. -/
theorem applyUpdates_type (updates : List (List (String × PyVal))) :
    ∀ (s : ActivityProps) (v : String), s.type = some v →
      (applyUpdates s updates).type = some v := by
  induction updates with
  | nil => intro s v h; exact h
  | cons p rest ih =>
    intro s v h
    exact ih (updateProperties s p).1 v (updateProperties_type s p v h)

/-- C10 (confirmed): once the id (respectively type) field holds a value,
no sequence of property dicts fed through _update_properties ever
changes it. -/
theorem id_type_write_once :
    ∀ (s : ActivityProps) (updates : List (List (String × PyVal)))
      (v w : String),
      (s.id = some v → (applyUpdates s updates).id = some v) ∧
      (s.type = some w → (applyUpdates s updates).type = some w) :=
  fun s updates v w =>
    ⟨applyUpdates_id updates s v, applyUpdates_type updates s w⟩

/-- Witness for C10: a dict trying to overwrite both fields leaves them
unchanged. -/
theorem id_type_write_once_witness :
    propsWitnessState.id = some "aid" ∧ propsWitnessState.type = some "atype" ∧
    (applyUpdates propsWitnessState propsWitnessUpdates).id = some "aid" ∧
    (applyUpdates propsWitnessState propsWitnessUpdates).type = some "atype" :=
  ⟨rfl, rfl,
   (id_type_write_once propsWitnessState propsWitnessUpdates "aid" "atype").1 rfl,
   (id_type_write_once propsWitnessState propsWitnessUpdates "aid" "atype").2 rfl⟩

end SugarActivity
